import Mathlib

/-!
Verification of the dprint js-formatter plugin host (router, generation
adapters, host callback bridge, version detection, streaming loader).

Strings crossing the host/guest boundary are modeled as lists of
characters (`Str`); the UTF-8 byte channel that transports them is
abstracted to the decoded text it delivers.  Configuration objects are
opaque to the host (it only serializes and forwards them), so a
configuration is modeled by its serialized form.  Wasm guests are modeled
as oracles: pure functions from everything the adapter has sent them
(registered configuration, file path, file text, override config, range)
to the integer response code and the texts staged for retrieval.  Every
guest export invoked by an adapter call is recorded in an explicit call
trace so that claims about which exports are (not) reached are provable.
-/

namespace DprintFmt

/-- Text, as the decoded character sequence exchanged over the byte channel. -/
abbrev Str := List Char

/-- A configuration object, identified with its JSON serialization
(the host never inspects configuration contents). -/
abbrev Config := Str

/-- The serialization of the empty configuration object sent by the
implicit `setConfig({}, {})`. -/
def emptyConfig : Config := []

/-- A (globalConfig, pluginConfig) pair as registered inside a guest. -/
abbrev ConfigPair := Config × Config

/-- common.ts FormatRequest. -/
structure FormatRequest where
  filePath : Str
  fileText : Str
  bytesRange : Option (Nat × Nat) := none
  overrideConfig : Option Config := none
deriving DecidableEq, Repr

/-! ## File name / extension derivation (mod.ts getFileName, getFileExtension) -/

/-- Index of the last occurrence of a character, if any. -/
def lastIndexOf : Str → Char → Option Nat
  | [], _ => none
  | x :: xs, c =>
    match lastIndexOf xs c with
    | some i => some (i + 1)
    | none => if x = c then some 0 else none

/-- JS String.prototype.lastIndexOf: -1 when absent. -/
def jsLastIndexOf (s : Str) (c : Char) : Int :=
  match lastIndexOf s c with
  | some i => (i : Int)
  | none => -1

/-- mod.ts getFileName: the substring after the last slash or backslash,
lower-cased (JS toLowerCase modeled as per-character ASCII lowering). -/
def getFileName (filePath : Str) : Str :=
  let lastSlash := max (jsLastIndexOf filePath '/') (jsLastIndexOf filePath '\\')
  (if 0 ≤ lastSlash then filePath.drop (lastSlash.toNat + 1) else filePath).map Char.toLower

/-- mod.ts getFileExtension: the substring of the (lower-cased) file name
after the last dot, provided that dot sits at an index strictly greater
than 0; undefined otherwise. -/
def getFileExtension (filePath : Str) : Option Str :=
  if 0 < jsLastIndexOf (getFileName filePath) '.' then
    some ((getFileName filePath).drop
      ((jsLastIndexOf (getFileName filePath) '.').toNat + 1))
  else none

/-! ## The multi-plugin router (mod.ts createContext) -/

/-- A registered plugin: its formatter (the formatText of the facade, which may
throw, hence Except) plus the file-matching sets captured at registration.
A JS Set is modeled as its insertion-ordered, duplicate-free element list. -/
structure RegisteredPlugin where
  formatter : FormatRequest → Except Str Str
  fileExtensions : List Str
  fileNames : List Str

/-- mod.ts findPluginForFile: first pass over registration order by exact
file name, second pass by extension (the second pass is guarded by JS
truthiness of the extension, so an empty-string extension never matches). -/
def findPluginForFile (plugins : List RegisteredPlugin) (filePath : Str) :
    Option RegisteredPlugin :=
  match plugins.find? (fun p => decide (getFileName filePath ∈ p.fileNames)) with
  | some p => some p
  | none =>
    match getFileExtension filePath with
    | some ext =>
      if ext.isEmpty then none
      else plugins.find? (fun p => decide (ext ∈ p.fileExtensions))
    | none => none

/-- The routing-failure message of createContext formatText. -/
def noPluginFoundMessage (plugins : List RegisteredPlugin) (filePath : Str) : Str :=
  "No plugin found for file: ".toList ++ filePath
    ++ ". Registered plugins handle: ".toList
    ++ List.intercalate "; ".toList
        (plugins.map (fun p => List.intercalate ", ".toList p.fileExtensions))

/-- createContext formatText: route to the matched plugin or throw. -/
def contextFormatText (plugins : List RegisteredPlugin) (request : FormatRequest) :
    Except Str Str :=
  match findPluginForFile plugins request.filePath with
  | some p => p.formatter request
  | none => Except.error (noPluginFoundMessage plugins request.filePath)

/-! ## Guest-facing call traces

Every adapter operation records, in order, the guest exports it invokes.
One inductive covers both generations (v3 names carry a V3 suffix where
the generations use different exports for the same step). -/

inductive GuestCall where
  | resetConfig
  | setGlobalConfig (g : Config)
  | setPluginConfig (p : Config)
  | releaseConfig (id : Nat)
  | registerConfig (id : Nat) (cfg : ConfigPair)
  | setOverrideConfig (oc : Config)
  | setFilePath (s : Str)
  | sendFileText (s : Str)
  | formatV3
  | format (id : Nat)
  | formatRange (id : Nat) (s e : Nat)
  | getFormattedText
  | getErrorText
  | getResolvedConfigV3
  | getConfigDiagnosticsV3
  | getResolvedConfig (id : Nat)
  | getConfigDiagnostics (id : Nat)
  | getConfigFileMatching (id : Nat)
deriving DecidableEq, Repr

/-- Whether a call registers (or re-sends) a configuration into the guest. -/
def GuestCall.isConfigRegistration : GuestCall → Bool
  | .registerConfig _ _ => true
  | .setGlobalConfig _ => true
  | .setPluginConfig _ => true
  | _ => false

/-- Whether a call belongs to the format request proper (override-config,
file path, file text sends and the format invocation itself). -/
def GuestCall.isFormatSend : GuestCall → Bool
  | .setOverrideConfig _ => true
  | .setFilePath _ => true
  | .sendFileText _ => true
  | .formatV3 => true
  | .format _ => true
  | .formatRange _ _ _ => true
  | _ => false

/-- Host-side adapter state shared by both generations: whether setConfig
has run, and the configuration pair currently registered in the guest. -/
structure AdapterState where
  configSet : Bool
  registered : Option ConfigPair
deriving DecidableEq, Repr

/-- Fresh adapter state: no configuration ever set or registered. -/
def initialAdapterState : AdapterState := ⟨false, none⟩

/-- What a guest stages in answer to a format invocation. -/
structure GuestResponse where
  code : Int
  formattedText : Str
  errorText : Str

/-- The outcome of one adapter formatText call: the returned-or-thrown
value, the adapter state afterwards, and the guest exports invoked. -/
structure FormatRun where
  result : Except Str Str
  state : AdapterState
  calls : List GuestCall

/-- The outcome of one adapter info call (resolved config, diagnostics,
file matching): the received text plus state and trace. -/
structure InfoRun where
  value : Str
  state : AdapterState
  calls : List GuestCall

/-- The "Unexpected response code" protocol-violation message. -/
def unexpectedResponseCodeMessage (code : Int) : Str :=
  "Unexpected response code: ".toList ++ (toString code).toList

/-- v3.ts hard error for override configuration on a schema-2 plugin. -/
def cannotOverrideMessage : Str :=
  "Cannot set the override configuration for this old plugin.".toList

/-! ## Generation-4 adapter (v4.ts createFromInstance) -/

/-- v4.ts uses the single config handle 1. -/
def configId : Nat := 1

/-- A generation-4 guest, as the oracle the adapter talks to: whether it
exports format_range, and its responses as functions of the registered
configuration and of the request data the adapter sent. -/
structure GuestV4 where
  hasFormatRange : Bool
  respond : FormatRequest → Option ConfigPair → GuestResponse
  resolvedConfig : Option ConfigPair → Str
  configDiagnostics : Option ConfigPair → Str
  configFileMatching : Option ConfigPair → Str

/-- v4.ts setConfig: release_config(configId), send the serialized
(global, plugin) pair, register_config(configId). -/
def v4SetConfig (_st : AdapterState) (g p : Config) : AdapterState × List GuestCall :=
  (⟨true, some (g, p)⟩,
    [GuestCall.releaseConfig configId, GuestCall.registerConfig configId (g, p)])

/-- v4.ts setConfigIfNotSet. -/
def v4SetConfigIfNotSet (st : AdapterState) : AdapterState × List GuestCall :=
  if st.configSet then (st, []) else v4SetConfig st emptyConfig emptyConfig

/-- v4.ts formatText. -/
def v4FormatText (guest : GuestV4) (st : AdapterState) (request : FormatRequest) :
    FormatRun :=
  if request.bytesRange.isSome && !guest.hasFormatRange then
    -- plugin does not support range formatting
    ⟨Except.ok request.fileText, st, []⟩
  else
    let stepCfg := v4SetConfigIfNotSet st
    let st1 := stepCfg.1
    let overrideCalls :=
      match request.overrideConfig with
      | some oc => [GuestCall.setOverrideConfig oc]
      | none => []
    let sendCalls := [GuestCall.setFilePath request.filePath,
                      GuestCall.sendFileText request.fileText]
    let formatCall :=
      match request.bytesRange with
      | some r => GuestCall.formatRange configId r.1 r.2
      | none => GuestCall.format configId
    let leadCalls := stepCfg.2 ++ overrideCalls ++ sendCalls ++ [formatCall]
    let response := guest.respond request st1.registered
    if response.code = 0 then
      ⟨Except.ok request.fileText, st1, leadCalls⟩
    else if response.code = 1 then
      ⟨Except.ok response.formattedText, st1, leadCalls ++ [GuestCall.getFormattedText]⟩
    else if response.code = 2 then
      ⟨Except.error response.errorText, st1, leadCalls ++ [GuestCall.getErrorText]⟩
    else
      ⟨Except.error (unexpectedResponseCodeMessage response.code), st1, leadCalls⟩

/-- v4.ts getResolvedConfig. -/
def v4GetResolvedConfig (guest : GuestV4) (st : AdapterState) : InfoRun :=
  let stepCfg := v4SetConfigIfNotSet st
  ⟨guest.resolvedConfig stepCfg.1.registered, stepCfg.1,
    stepCfg.2 ++ [GuestCall.getResolvedConfig configId]⟩

/-- v4.ts getConfigDiagnostics. -/
def v4GetConfigDiagnostics (guest : GuestV4) (st : AdapterState) : InfoRun :=
  let stepCfg := v4SetConfigIfNotSet st
  ⟨guest.configDiagnostics stepCfg.1.registered, stepCfg.1,
    stepCfg.2 ++ [GuestCall.getConfigDiagnostics configId]⟩

/-- v4.ts getFileMatchingInfo: passes the handle straight to
get_config_file_matching, with no setConfigIfNotSet guard. -/
def v4GetFileMatchingInfo (guest : GuestV4) (st : AdapterState) : InfoRun :=
  ⟨guest.configFileMatching st.registered, st,
    [GuestCall.getConfigFileMatching configId]⟩

/-! ## Generation-3 adapter (v3.ts createFromInstance) -/

/-- A generation-3 guest: the value its get_plugin_schema_version export
returned at instantiation (2 or 3 for a successfully created adapter),
whether it exports reset_config, and its response oracles. -/
structure GuestV3 where
  schemaVersion : Int
  hasResetConfig : Bool
  respond : FormatRequest → Option ConfigPair → GuestResponse
  resolvedConfig : Option ConfigPair → Str
  configDiagnostics : Option ConfigPair → Str

/-- v3.ts setConfig: optional reset_config, then send global and plugin
configurations separately. -/
def v3SetConfig (guest : GuestV3) (_st : AdapterState) (g p : Config) :
    AdapterState × List GuestCall :=
  (⟨true, some (g, p)⟩,
    (if guest.hasResetConfig then [GuestCall.resetConfig] else [])
      ++ [GuestCall.setGlobalConfig g, GuestCall.setPluginConfig p])

/-- v3.ts setConfigIfNotSet. -/
def v3SetConfigIfNotSet (guest : GuestV3) (st : AdapterState) :
    AdapterState × List GuestCall :=
  if st.configSet then (st, []) else v3SetConfig guest st emptyConfig emptyConfig

/-- v3.ts formatText. -/
def v3FormatText (guest : GuestV3) (st : AdapterState) (request : FormatRequest) :
    FormatRun :=
  if request.bytesRange.isSome then
    -- not supported for v3
    ⟨Except.ok request.fileText, st, []⟩
  else
    let stepCfg := v3SetConfigIfNotSet guest st
    let st1 := stepCfg.1
    if request.overrideConfig.isSome && guest.schemaVersion == 2 then
      ⟨Except.error cannotOverrideMessage, st1, stepCfg.2⟩
    else
      let overrideCalls :=
        match request.overrideConfig with
        | some oc => [GuestCall.setOverrideConfig oc]
        | none => []
      let sendCalls := [GuestCall.setFilePath request.filePath,
                        GuestCall.sendFileText request.fileText]
      let leadCalls := stepCfg.2 ++ overrideCalls ++ sendCalls ++ [GuestCall.formatV3]
      let response := guest.respond request st1.registered
      if response.code = 0 then
        ⟨Except.ok request.fileText, st1, leadCalls⟩
      else if response.code = 1 then
        ⟨Except.ok response.formattedText, st1, leadCalls ++ [GuestCall.getFormattedText]⟩
      else if response.code = 2 then
        ⟨Except.error response.errorText, st1, leadCalls ++ [GuestCall.getErrorText]⟩
      else
        ⟨Except.error (unexpectedResponseCodeMessage response.code), st1, leadCalls⟩

/-- v3.ts getResolvedConfig. -/
def v3GetResolvedConfig (guest : GuestV3) (st : AdapterState) : InfoRun :=
  let stepCfg := v3SetConfigIfNotSet guest st
  ⟨guest.resolvedConfig stepCfg.1.registered, stepCfg.1,
    stepCfg.2 ++ [GuestCall.getResolvedConfigV3]⟩

/-- v3.ts getConfigDiagnostics. -/
def v3GetConfigDiagnostics (guest : GuestV3) (st : AdapterState) : InfoRun :=
  let stepCfg := v3SetConfigIfNotSet guest st
  ⟨guest.configDiagnostics stepCfg.1.registered, stepCfg.1,
    stepCfg.2 ++ [GuestCall.getConfigDiagnosticsV3]⟩

/-! ## Host callback bridge (v3.ts / v4.ts createHost host_format)

A user-supplied host formatter is a function that either returns text or
throws; a thrown value is modeled by Except.error carrying the string JS
String(error) would produce for it. -/

/-- Host-side staging state of the v4 bridge. -/
structure HostState where
  formattedText : Str
  errorText : Str
deriving DecidableEq, Repr

/-- v4.ts createHost host_format.  The guest passes the file path, the
byte range, the serialized override config and the file text; the raw
byte length of the file text is the guest-supplied fileBytesLen argument
(the full-range sentinel is rangeStart = 0 and rangeEnd = fileBytesLen). -/
def v4HostFormat (hostFormatter : Option (FormatRequest → Except Str Str))
    (st : HostState) (filePath : Str) (rangeStart rangeEnd : Nat)
    (overrideConfigRaw : Str) (fileText : Str) (fileBytesLen : Nat) :
    Int × HostState :=
  let overrideConfig : Config :=
    if overrideConfigRaw = [] then emptyConfig else overrideConfigRaw
  let bytesRange : Option (Nat × Nat) :=
    if rangeStart = 0 ∧ rangeEnd = fileBytesLen then none
    else some (rangeStart, rangeEnd)
  match hostFormatter with
  | none =>
    -- hostFormatter?.(...) ?? fileText leaves the text unchanged
    (if fileText = fileText then 0 else 1, { st with formattedText := fileText })
  | some f =>
    match f ⟨filePath, fileText, bytesRange, some overrideConfig⟩ with
    | Except.ok t => (if fileText = t then 0 else 1, { st with formattedText := t })
    | Except.error e => (2, { st with errorText := e })

/-- v4 host_get_formatted_text stages and returns the formatted text. -/
def v4HostGetFormattedText (st : HostState) : Str := st.formattedText

/-- v4 host_get_error_text stages and returns the error text. -/
def v4HostGetErrorText (st : HostState) : Str := st.errorText

/-- Host-side state of the v3 bridge: the file path and override config
taken earlier via host_take_file_path / host_take_override_config, plus
the staging fields. -/
structure V3HostState where
  filePath : Str
  overrideConfig : Config
  formattedText : Str
  errorText : Str
deriving DecidableEq, Repr

/-- v3.ts createHost host_format: the file text arrives through the shared
buffer; path and override config were taken beforehand. -/
def v3HostFormat (hostFormatter : Option (FormatRequest → Except Str Str))
    (st : V3HostState) (fileText : Str) : Int × V3HostState :=
  match hostFormatter with
  | none =>
    (if fileText = fileText then 0 else 1, { st with formattedText := fileText })
  | some f =>
    match f ⟨st.filePath, fileText, none, some st.overrideConfig⟩ with
    | Except.ok t => (if fileText = t then 0 else 1, { st with formattedText := t })
    | Except.error e => (2, { st with errorText := e })

/-- v3 host_get_formatted_text. -/
def v3HostGetFormattedText (st : V3HostState) : Str := st.formattedText

/-- v3 host_get_error_text. -/
def v3HostGetErrorText (st : V3HostState) : Str := st.errorText

/-! ## Version detection (mod.ts getModuleVersion and friends) -/

/-- JS String.prototype.startsWith. -/
def jsStartsWith : Str → Str → Bool
  | _, [] => true
  | [], _ :: _ => false
  | c :: cs, p :: ps => c = p && jsStartsWith cs ps

/-- Digit run to a natural number. -/
def digitsToNat (ds : Str) : Nat :=
  ds.foldl (fun acc c => acc * 10 + (c.toNat - 48)) 0

/-- JS parseInt(s, 10): skip leading whitespace, optional sign, longest
digit run; NaN (none) when no digit follows. -/
def jsParseInt10 (s : Str) : Option Int :=
  let s1 := s.dropWhile (fun c => c = ' ' ∨ c = '\t' ∨ c = '\n' ∨ c = '\r')
  let signAndRest : Int × Str :=
    match s1 with
    | '-' :: rest => (-1, rest)
    | '+' :: rest => (1, rest)
    | _ => (1, s1)
  let digits := signAndRest.2.takeWhile Char.isDigit
  if digits.isEmpty then none
  else some (signAndRest.1 * (digitsToNat digits : Int))

/-- The export-name prefix carrying a plugin generation number. -/
def dprintVersionPfx : Str := "dprint_plugin_version_".toList

/-- mod.ts getVersionFromExport: exact name get_plugin_schema_version means
generation 3; otherwise a dprint_plugin_version_ name whose suffix
parseInt-parses yields that integer. -/
def getVersionFromExport (name : Str) : Option Int :=
  if name = "get_plugin_schema_version".toList then some 3
  else if jsStartsWith name dprintVersionPfx then
    match jsParseInt10 (name.drop dprintVersionPfx.length) with
    | some v => some v
    | none => none
  else none

/-- mod.ts getModuleVersion: scan the exports of the module in order; the first
export yielding a version decides. -/
def getModuleVersion : List Str → Option Int
  | [] => none
  | e :: es =>
    match getVersionFromExport e with
    | some v => some v
    | none => getModuleVersion es

/-- mod.ts error: no versioned export found. -/
def versionUndeterminableMessage : Str :=
  "Couldn\x27t determine dprint plugin version. Maybe the js-formatter version is too old?".toList

/-- mod.ts error: plugin generation newer than this host supports. -/
def tooNewVersionMessage (v : Int) : Str :=
  ("Unsupported new dprint plugin version \x27" ++ toString v
    ++ "\x27. Maybe the js-formatter version is too old?").toList

/-- mod.ts error: unsupported legacy generation. -/
def tooOldVersionMessage (v : Int) : Str :=
  ("Unsupported old dprint plugin version \x27" ++ toString v
    ++ "\x27. Please upgrade the plugin.").toList

/-- mod.ts getModuleVersionOrThrow. -/
def getModuleVersionOrThrow (exports : List Str) : Except Str Int :=
  match getModuleVersion exports with
  | none => Except.error versionUndeterminableMessage
  | some v =>
    if v = 3 ∨ v = 4 then Except.ok v
    else if v > 4 then Except.error (tooNewVersionMessage v)
    else Except.error (tooOldVersionMessage v)

/-- The two generation adapters a module can be instantiated with. -/
inductive AdapterGen where
  | gen3
  | gen4
deriving DecidableEq, Repr

/-- mod.ts createFromWasmModule, abstracted to the adapter selection it
performs on the export names of the module: version 3 builds the v3 adapter,
version 4 the v4 adapter, anything else propagates the detection error. -/
def createFromWasmModule (exports : List Str) : Except Str AdapterGen :=
  (getModuleVersionOrThrow exports).map
    (fun v => if v = 3 then AdapterGen.gen3 else AdapterGen.gen4)

/-! ## Streaming loader (mod.ts createStreaming / createWasmModuleFromStreaming) -/

/-- mod.ts ResponseLike, with body bytes and text() both available and the
content-type header pre-fetched. -/
structure ResponseLike where
  status : Nat
  contentType : Option Str
  body : List Nat
  bodyText : Str

/-- Whether WebAssembly.instantiateStreaming exists in this runtime. -/
structure WasmEnv where
  hasInstantiateStreaming : Bool

/-- Which compilation path produced a module. -/
inductive CompilePath where
  | streaming
  | buffer
deriving DecidableEq, Repr

/-- A compiled module: how it was compiled plus its export names (the only
thing the subsequent version detection consumes). -/
structure CompiledModule where
  path : CompilePath
  exports : List Str
deriving DecidableEq, Repr

/-- The non-200 rejection message of createWasmModuleFromStreaming. -/
def unexpectedStatusMessage (r : ResponseLike) : Str :=
  "Unexpected status code: ".toList ++ (toString r.status).toList
    ++ "\n".toList ++ r.bodyText

/-- mod.ts createWasmModuleFromStreaming, parametrized by the runtime
compiler (compile, from bytes to export names — WebAssembly.compileStreaming
and new WebAssembly.Module(buffer) yield the same module for the same
bytes, so one compile function serves both paths). -/
def createWasmModuleFromStreaming (compile : List Nat → List Str) (env : WasmEnv)
    (r : ResponseLike) : Except Str CompiledModule :=
  if r.status ≠ 200 then Except.error (unexpectedStatusMessage r)
  else if env.hasInstantiateStreaming
      ∧ r.contentType = some "application/wasm".toList then
    Except.ok ⟨CompilePath.streaming, compile r.body⟩
  else
    -- fallback for node.js or when the content type is not application/wasm
    Except.ok ⟨CompilePath.buffer, compile r.body⟩

/-- mod.ts createStreaming: compile the streamed module, then instantiate
through createFromWasmModule. -/
def createStreaming (compile : List Nat → List Str) (env : WasmEnv)
    (r : ResponseLike) : Except Str AdapterGen :=
  (createWasmModuleFromStreaming compile env r).bind
    (fun m => createFromWasmModule m.exports)

/-! ## createContext addPlugin (mod.ts) -/

/-- common.ts FileMatchingInfo: fileExtensions may be undefined. -/
structure FileMatchingInfo where
  fileExtensions : Option (List Str)
  fileNames : List Str
deriving DecidableEq, Repr

/-- JS new Set(list): insertion-ordered with first occurrences kept. -/
def dedupFirstAux (seen : List Str) : List Str → List Str
  | [] => []
  | x :: xs =>
    if x ∈ seen then dedupFirstAux seen xs
    else x :: dedupFirstAux (x :: seen) xs

/-- Duplicate-free insertion-ordered view of a list (JS Set contents). -/
def dedupFirst (l : List Str) : List Str := dedupFirstAux [] l

/-- Outcome of createContext addPlugin: whether it threw (the TypeError
from .map on undefined) and the plugins list afterwards. -/
structure AddPluginRun where
  threw : Bool
  plugins : List RegisteredPlugin

/-- mod.ts createContext addPlugin, from the point where the plugin
FileMatchingInfo has been fetched: lower-case and collect the extension
and name sets, then push the registered plugin.  When fileExtensions is
undefined the .map call throws first, so nothing is pushed. -/
def addPlugin (plugins : List RegisteredPlugin)
    (formatter : FormatRequest → Except Str Str)
    (matchingInfo : FileMatchingInfo) : AddPluginRun :=
  match matchingInfo.fileExtensions with
  | none => ⟨true, plugins⟩
  | some exts =>
    let fileExtensions := dedupFirst (exts.map (fun e => e.map Char.toLower))
    let fileNames := dedupFirst (matchingInfo.fileNames.map (fun n => n.map Char.toLower))
    ⟨false, plugins ++ [⟨formatter, fileExtensions, fileNames⟩]⟩

/-- v3.ts implicit-registration trace: optional reset_config followed by
sending the empty global and plugin configurations. -/
def v3ImplicitRegistrationCalls (guest : GuestV3) : List GuestCall :=
  (if guest.hasResetConfig then [GuestCall.resetConfig] else [])
    ++ [GuestCall.setGlobalConfig emptyConfig, GuestCall.setPluginConfig emptyConfig]

/-- v4.ts implicit-registration trace: release then register handle 1 with
the empty configuration pair. -/
def v4ImplicitRegistrationCalls : List GuestCall :=
  [GuestCall.releaseConfig configId,
   GuestCall.registerConfig configId (emptyConfig, emptyConfig)]

/-- The adapter state right after the implicit empty registration. -/
def emptyRegisteredState : AdapterState := ⟨true, some (emptyConfig, emptyConfig)⟩

/-! ## Concrete instances used to exercise the theorems -/

/-- A guest response oracle ignoring its inputs. -/
def demoRespond (code : Int) (ft et : Str) :
    FormatRequest → Option ConfigPair → GuestResponse :=
  fun _ _ => ⟨code, ft, et⟩

/-- A v4 guest with format_range that reports a change to "fmt". -/
def demoGuestV4 : GuestV4 :=
  ⟨true, demoRespond 1 "fmt".toList "err".toList, fun _ => [], fun _ => [], fun _ => []⟩

/-- A v4 guest without format_range. -/
def demoGuestV4NoRange : GuestV4 :=
  ⟨false, demoRespond 0 [] [], fun _ => [], fun _ => [], fun _ => []⟩

/-- A schema-3 v3 guest that reports failure with message "boom". -/
def demoGuestV3 : GuestV3 :=
  ⟨3, true, demoRespond 2 [] "boom".toList, fun _ => [], fun _ => []⟩

/-- A schema-2 v3 guest. -/
def demoGuestV3v2 : GuestV3 :=
  ⟨2, true, demoRespond 0 [] [], fun _ => [], fun _ => []⟩

/-- A plain full-text request. -/
def demoRequest : FormatRequest :=
  ⟨"file.txt".toList, "text".toList, none, none⟩

/-- A ranged request. -/
def demoRangedRequest : FormatRequest :=
  ⟨"file.txt".toList, "text".toList, some (0, 5), none⟩

/-- A request carrying both an override configuration and a byte range. -/
def overrideAndRangeRequest : FormatRequest :=
  ⟨"file.json".toList, "text".toList, some (0, 1), some "cfg".toList⟩

/-- A request carrying an override configuration and no byte range. -/
def overrideOnlyRequest : FormatRequest :=
  ⟨"file.json".toList, "text".toList, none, some "cfg".toList⟩

/-- A registered json plugin matching by extension only. -/
def pluginJson : RegisteredPlugin :=
  ⟨fun _ => Except.ok "json output".toList, ["json".toList], []⟩

/-- A registered dockerfile plugin matching by exact file name only. -/
def pluginDocker : RegisteredPlugin :=
  ⟨fun _ => Except.ok "docker output".toList, [], ["dockerfile".toList]⟩

/-- A request for the bare path dockerfile. -/
def dockerRequest : FormatRequest :=
  ⟨"dockerfile".toList, "FROM x".toList, none, none⟩

/-- A host formatter that appends a bang. -/
def demoHostFormatter : FormatRequest → Except Str Str :=
  fun req => Except.ok (req.fileText ++ "!".toList)

/-- A host formatter that throws. -/
def demoThrowingHostFormatter : FormatRequest → Except Str Str :=
  fun _ => Except.error "Error: host failed".toList

/-- A fresh v4 host staging state. -/
def initialHostState : HostState := ⟨[], []⟩

/-- A compiler stub whose modules export dprint_plugin_version_4. -/
def demoCompile : List Nat → List Str :=
  fun _ => ["dprint_plugin_version_4".toList]

/-- A 200 response whose content type is not application/wasm. -/
def okOctetResponse : ResponseLike :=
  ⟨200, some "application/octet-stream".toList, [0, 97], "wasm bytes".toList⟩

/-- A 404 response. -/
def notFoundResponse : ResponseLike :=
  ⟨404, some "text/plain".toList, [], "not found".toList⟩

/-- A runtime that supports instantiateStreaming. -/
def demoEnv : WasmEnv := ⟨true⟩

/-! ## Supporting lemmas -/

theorem lastIndexOf_eq_none (l : Str) (c : Char) :
    lastIndexOf l c = none ↔ c ∉ l := by
  induction l with
  | nil => simp [lastIndexOf]
  | cons x xs ih =>
    rw [lastIndexOf]
    cases h : lastIndexOf xs c with
    | some i =>
      have hc : c ∈ xs := by
        by_contra hc
        rw [← ih] at hc
        simp [h] at hc
      simp [hc]
    | none =>
      have hc : c ∉ xs := ih.mp h
      by_cases hx : x = c
      · subst hx
        simp
      · simp [hx, hc, List.mem_cons]
        intro h'
        exact hx h'.symm

theorem lastIndexOf_eq_some_zero (l : Str) (c : Char) :
    lastIndexOf l c = some 0 ↔ ∃ rest, l = c :: rest ∧ c ∉ rest := by
  induction l with
  | nil => simp [lastIndexOf]
  | cons x xs ih =>
    rw [lastIndexOf]
    cases h : lastIndexOf xs c with
    | some i =>
      have hc : c ∈ xs := by
        by_contra hc
        rw [← (lastIndexOf_eq_none xs c)] at hc
        simp [h] at hc
      simp only [Option.some.injEq]
      constructor
      · intro h'
        exact absurd h' (by omega)
      · rintro ⟨rest, hr, hnotin⟩
        cases hr
        exact absurd hc hnotin
    | none =>
      have hc : c ∉ xs := (lastIndexOf_eq_none xs c).mp h
      by_cases hx : x = c
      · subst hx
        simp [hc]
      · simp only [if_neg hx]
        constructor
        · intro h'
          exact absurd h' (by simp)
        · rintro ⟨rest, hr, _⟩
          exact absurd (List.cons.injEq .. ▸ congrArg id hr).1 hx

theorem v3SetConfigIfNotSet_calls_not_send (guest : GuestV3) (st : AdapterState) :
    ∀ c ∈ (v3SetConfigIfNotSet guest st).2, c.isFormatSend = false := by
  intro c hc
  unfold v3SetConfigIfNotSet v3SetConfig at hc
  by_cases h : st.configSet
  · simp [h] at hc
  · simp [h] at hc
    by_cases hr : guest.hasResetConfig
    · simp [hr] at hc
      rcases hc with h1 | h1 | h1 <;> subst h1 <;> rfl
    · simp [hr] at hc
      rcases hc with h1 | h1 <;> subst h1 <;> rfl

theorem getFileExtension_eq_none_iff (filePath : Str) :
    getFileExtension filePath = none ↔
      (lastIndexOf (getFileName filePath) '.' = none
        ∨ lastIndexOf (getFileName filePath) '.' = some 0) := by
  unfold getFileExtension jsLastIndexOf
  cases h : lastIndexOf (getFileName filePath) '.' with
  | none => simp
  | some k =>
    cases k with
    | zero => simp
    | succ n => simp [Nat.cast_pos]

theorem getFileExtension_eq_drop (filePath : Str) (k : Nat)
    (hk : lastIndexOf (getFileName filePath) '.' = some k) (h0 : 0 < k) :
    getFileExtension filePath = some ((getFileName filePath).drop (k + 1)) := by
  unfold getFileExtension jsLastIndexOf
  rw [hk]
  show (if (0 : Int) < (k : Int) then
      some ((getFileName filePath).drop ((k : Int).toNat + 1)) else none)
    = some ((getFileName filePath).drop (k + 1))
  rw [if_pos (by exact_mod_cast h0)]
  simp

/-! ## C10: dotfile-excluding extension derivation -/

/-- C10: router extension derivation excludes dotfiles: getFileExtension
returns none exactly when the lower-cased file name has no dot or its only
dot is its first character; such a path is routed purely by the exact
file-name pass (its extension is never matched against the
extension set of any plugin); for every other name the derived extension is the
substring of the lower-cased file name after its last dot. -/
theorem router_extension_excludes_dotfiles (filePath : Str)
    (plugins : List RegisteredPlugin) :
    (getFileExtension filePath = none ↔
      ('.' ∉ getFileName filePath
        ∨ ∃ rest, getFileName filePath = '.' :: rest ∧ '.' ∉ rest))
    ∧ (getFileExtension filePath = none →
        findPluginForFile plugins filePath
          = plugins.find? (fun p => decide (getFileName filePath ∈ p.fileNames)))
    ∧ (∀ k, lastIndexOf (getFileName filePath) '.' = some k → 0 < k →
        getFileExtension filePath = some ((getFileName filePath).drop (k + 1))) := by
  refine ⟨?_, ?_, ?_⟩
  · rw [getFileExtension_eq_none_iff]
    constructor
    · rintro (h | h)
      · exact Or.inl ((lastIndexOf_eq_none _ _).mp h)
      · exact Or.inr ((lastIndexOf_eq_some_zero _ _).mp h)
    · rintro (h | ⟨rest, hr, hn⟩)
      · exact Or.inl ((lastIndexOf_eq_none _ _).mpr h)
      · exact Or.inr ((lastIndexOf_eq_some_zero _ _).mpr ⟨rest, hr, hn⟩)
  · intro hext
    unfold findPluginForFile
    rw [hext]
    cases plugins.find? (fun p => decide (getFileName filePath ∈ p.fileNames)) <;> rfl
  · intro k hk h0
    exact getFileExtension_eq_drop filePath k hk h0

/-- Witness for C10 at concrete inputs: the dotfile ".json" derives no
extension, while "x.JSON" derives extension "json". -/
theorem router_extension_excludes_dotfiles_witness :
    getFileExtension ".json".toList = none
      ∧ getFileExtension "x.JSON".toList = some "json".toList := by
  constructor
  · exact (router_extension_excludes_dotfiles ".json".toList []).1.mpr
      (Or.inr ⟨"json".toList, by decide, by decide⟩)
  · exact (router_extension_excludes_dotfiles "x.JSON".toList []).2.2 1 (by decide) (by decide)

/-! ## C1: router file matching -/

/-- C1: router file matching: the context formats with the first plugin in
registration order whose exact-filename set contains the lower-cased file
name; only when no plugin at all matches by file name does it fall back to
the first plugin in registration order whose extension set contains the
derived extension; when neither pass matches, it throws the message
listing the extensions of each registered plugin. -/
theorem context_router_file_matching (plugins : List RegisteredPlugin)
    (request : FormatRequest) :
    (∀ p, plugins.find? (fun q => decide (getFileName request.filePath ∈ q.fileNames))
          = some p →
        contextFormatText plugins request = p.formatter request)
    ∧ ((∀ p ∈ plugins, getFileName request.filePath ∉ p.fileNames) →
        ∀ ext, getFileExtension request.filePath = some ext → ext ≠ [] →
        ∀ p, plugins.find? (fun q => decide (ext ∈ q.fileExtensions)) = some p →
          contextFormatText plugins request = p.formatter request)
    ∧ ((∀ p ∈ plugins, getFileName request.filePath ∉ p.fileNames) →
        (∀ ext, getFileExtension request.filePath = some ext → ext ≠ [] →
          ∀ p ∈ plugins, ext ∉ p.fileExtensions) →
        contextFormatText plugins request
          = Except.error (noPluginFoundMessage plugins request.filePath)) := by
  have hname : ∀ (h : ∀ p ∈ plugins, getFileName request.filePath ∉ p.fileNames),
      plugins.find? (fun q => decide (getFileName request.filePath ∈ q.fileNames)) = none := by
    intro h
    rw [List.find?_eq_none]
    intro q hq
    simpa using h q hq
  refine ⟨?_, ?_, ?_⟩
  · intro p hp
    unfold contextFormatText findPluginForFile
    simp only [hp]
  · intro hn ext hext hne p hp
    have hie : ext.isEmpty = false := by
      cases ext with
      | nil => exact absurd rfl hne
      | cons a l => rfl
    unfold contextFormatText findPluginForFile
    simp only [hname hn, hext, hie, Bool.false_eq_true, if_false, hp]
  · intro hn hext
    unfold contextFormatText findPluginForFile
    simp only [hname hn]
    cases h : getFileExtension request.filePath with
    | none => rfl
    | some ext =>
      by_cases he : ext = []
      · subst he
        rfl
      · have hie : ext.isEmpty = false := by
          cases ext with
          | nil => exact absurd rfl he
          | cons a l => rfl
        have hfnone : plugins.find? (fun q => decide (ext ∈ q.fileExtensions)) = none := by
          rw [List.find?_eq_none]
          intro q hq
          simpa using hext ext h he q hq
        simp only [h, hie, Bool.false_eq_true, if_false, hfnone]

/-- Witness for C1: with the json plugin registered first by extension and
the dockerfile plugin second by exact file name, the bare path dockerfile
routes to the dockerfile plugin (file-name match beats the earlier
registration). -/
theorem context_router_file_matching_witness :
    contextFormatText [pluginJson, pluginDocker] dockerRequest
      = Except.ok "docker output".toList :=
  (context_router_file_matching [pluginJson, pluginDocker] dockerRequest).1
    pluginDocker rfl

/-! ## C4: range short-circuit -/

/-- C4: for a request with a bytesRange, an adapter without a ranged-format
export (every v3 adapter; a v4 adapter whose module lacks format_range)
returns the fileText of the request, throws no error, leaves the adapter state
untouched and invokes no guest export at all (in particular no config
registration, no override-config send and no file-path or file-text send). -/
theorem range_short_circuit :
    (∀ (guest : GuestV3) (st : AdapterState) (request : FormatRequest) (r : Nat × Nat),
      request.bytesRange = some r →
      v3FormatText guest st request = ⟨Except.ok request.fileText, st, []⟩)
    ∧ (∀ (guest : GuestV4) (st : AdapterState) (request : FormatRequest) (r : Nat × Nat),
      request.bytesRange = some r → guest.hasFormatRange = false →
      v4FormatText guest st request = ⟨Except.ok request.fileText, st, []⟩) := by
  constructor
  · intro guest st request r h
    unfold v3FormatText
    rw [h]
    rfl
  · intro guest st request r h hfr
    unfold v4FormatText
    rw [h, hfr]
    rfl

/-- Witness for C4: a ranged request against a v4 guest without
format_range comes back unchanged with an empty call trace. -/
theorem range_short_circuit_witness :
    v4FormatText demoGuestV4NoRange initialAdapterState demoRangedRequest
      = ⟨Except.ok "text".toList, initialAdapterState, []⟩ :=
  range_short_circuit.2 demoGuestV4NoRange initialAdapterState demoRangedRequest
    (0, 5) rfl rfl

/-! ## C2: format response code contract -/

/-- C2: whenever a formatText call reaches the format (or format_range)
export of the guest, response code 0 returns exactly the fileText of the
request, code 1 returns the formatted text staged by the guest, code 2
throws the error text staged by the guest, and any other code throws the
fixed-form protocol-violation message (which always starts with the
literal prefix that no other branch produces).  The same contract holds
for both the generation-3 and generation-4 adapters. -/
theorem format_response_code_contract :
    (∀ (guest : GuestV4) (st : AdapterState) (request : FormatRequest),
      (request.bytesRange.isSome && !guest.hasFormatRange) = false →
      ∀ response,
        guest.respond request (v4SetConfigIfNotSet st).1.registered = response →
        ((response.code = 0 →
            (v4FormatText guest st request).result = Except.ok request.fileText)
          ∧ (response.code = 1 →
              (v4FormatText guest st request).result = Except.ok response.formattedText)
          ∧ (response.code = 2 →
              (v4FormatText guest st request).result = Except.error response.errorText)
          ∧ (response.code ≠ 0 → response.code ≠ 1 → response.code ≠ 2 →
              (v4FormatText guest st request).result
                = Except.error (unexpectedResponseCodeMessage response.code))))
    ∧ (∀ (guest : GuestV3) (st : AdapterState) (request : FormatRequest),
      request.bytesRange = none →
      (request.overrideConfig.isSome && guest.schemaVersion == 2) = false →
      ∀ response,
        guest.respond request (v3SetConfigIfNotSet guest st).1.registered = response →
        ((response.code = 0 →
            (v3FormatText guest st request).result = Except.ok request.fileText)
          ∧ (response.code = 1 →
              (v3FormatText guest st request).result = Except.ok response.formattedText)
          ∧ (response.code = 2 →
              (v3FormatText guest st request).result = Except.error response.errorText)
          ∧ (response.code ≠ 0 → response.code ≠ 1 → response.code ≠ 2 →
              (v3FormatText guest st request).result
                = Except.error (unexpectedResponseCodeMessage response.code))))
    ∧ (∀ code : Int, ∃ rest, unexpectedResponseCodeMessage code
        = "Unexpected response code: ".toList ++ rest) := by
  refine ⟨?_, ?_, fun code => ⟨(toString code).toList, rfl⟩⟩
  · intro guest st request hreach response hresp
    subst hresp
    unfold v4FormatText
    rw [hreach]
    simp only [Bool.false_eq_true, if_false]
    refine ⟨?_, ?_, ?_, ?_⟩
    · intro h0
      simp [h0]
    · intro h1
      by_cases h0 : (guest.respond request (v4SetConfigIfNotSet st).1.registered).code = 0
      · rw [h0] at h1
        exact absurd h1 (by norm_num)
      · simp [h0, h1]
    · intro h2
      have h0 : ¬(guest.respond request (v4SetConfigIfNotSet st).1.registered).code = 0 := by
        rw [h2]; norm_num
      have h1 : ¬(guest.respond request (v4SetConfigIfNotSet st).1.registered).code = 1 := by
        rw [h2]; norm_num
      simp [h0, h1, h2]
    · intro h0 h1 h2
      simp [h0, h1, h2]
  · intro guest st request hrange hover response hresp
    subst hresp
    unfold v3FormatText
    rw [hrange]
    simp only [Option.isSome_none, Bool.false_eq_true, if_false, hover]
    refine ⟨?_, ?_, ?_, ?_⟩
    · intro h0
      simp [h0]
    · intro h1
      by_cases h0 : (guest.respond request (v3SetConfigIfNotSet guest st).1.registered).code = 0
      · rw [h0] at h1
        exact absurd h1 (by norm_num)
      · simp [h0, h1]
    · intro h2
      have h0 : ¬(guest.respond request (v3SetConfigIfNotSet guest st).1.registered).code = 0 := by
        rw [h2]; norm_num
      have h1 : ¬(guest.respond request (v3SetConfigIfNotSet guest st).1.registered).code = 1 := by
        rw [h2]; norm_num
      simp [h0, h1, h2]
    · intro h0 h1 h2
      simp [h0, h1, h2]

/-- Witness for C2: the demo v4 guest answers code 1 with staged text
"fmt", and the demo v3 guest answers code 2 with staged error "boom". -/
theorem format_response_code_contract_witness :
    (v4FormatText demoGuestV4 initialAdapterState demoRequest).result
        = Except.ok "fmt".toList
      ∧ (v3FormatText demoGuestV3 initialAdapterState demoRequest).result
        = Except.error "boom".toList :=
  ⟨(format_response_code_contract.1 demoGuestV4 initialAdapterState demoRequest
      rfl _ rfl).2.1 rfl,
    (format_response_code_contract.2.1 demoGuestV3 initialAdapterState demoRequest
      rfl rfl _ rfl).2.2.1 rfl⟩

/-! ## C6: override-config asymmetry on the generation-3 adapter -/

/-- C6 counterexample: the claim quantifies over every formatText request
carrying an overrideConfig against a schema-2 plugin and asserts a hard
error, but a request that also carries a bytesRange hits the silent range
short-circuit first: the v3 adapter returns the input unchanged and never
throws the override error. -/
theorem override_config_v2_counterexample :
    (v3FormatText demoGuestV3v2 initialAdapterState overrideAndRangeRequest).result
        = Except.ok overrideAndRangeRequest.fileText
      ∧ (v3FormatText demoGuestV3v2 initialAdapterState overrideAndRangeRequest).result
        ≠ Except.error cannotOverrideMessage := by
  constructor
  · rfl
  · intro h
    rw [show (v3FormatText demoGuestV3v2 initialAdapterState overrideAndRangeRequest).result
        = Except.ok overrideAndRangeRequest.fileText from rfl] at h
    exact Except.noConfusion h

/-- C6 amended: for a formatText request carrying an overrideConfig and no
bytesRange against a schema-2 plugin, the v3 adapter throws the hard
override error, and no file path, file text, override config or format
invocation reaches the plugin; a request with a bytesRange on the same
adapter instead degrades silently to returning the input unchanged, even
when it also carries an overrideConfig. -/
theorem override_config_v2_hard_failure (guest : GuestV3) (st : AdapterState)
    (request : FormatRequest) (hv : guest.schemaVersion = 2) :
    (request.bytesRange = none → request.overrideConfig.isSome = true →
      (v3FormatText guest st request).result = Except.error cannotOverrideMessage
      ∧ ∀ c ∈ (v3FormatText guest st request).calls, c.isFormatSend = false)
    ∧ (∀ r, request.bytesRange = some r →
        v3FormatText guest st request = ⟨Except.ok request.fileText, st, []⟩) := by
  constructor
  · intro hrange hover
    have hcond : (request.overrideConfig.isSome && guest.schemaVersion == 2) = true := by
      rw [hover, hv]
      rfl
    unfold v3FormatText
    rw [hrange]
    simp only [Option.isSome_none, Bool.false_eq_true, if_false, hcond, if_true]
    exact ⟨by trivial, v3SetConfigIfNotSet_calls_not_send guest st⟩
  · intro r hr
    unfold v3FormatText
    rw [hr]
    rfl

/-- Witness for C6 amended: the override-only request against the schema-2
guest throws the hard error. -/
theorem override_config_v2_hard_failure_witness :
    (v3FormatText demoGuestV3v2 initialAdapterState overrideOnlyRequest).result
      = Except.error cannotOverrideMessage :=
  ((override_config_v2_hard_failure demoGuestV3v2 initialAdapterState
      overrideOnlyRequest rfl).1 rfl rfl).1

/-! ## C5: implicit configuration registration -/

theorem v4SetConfigIfNotSet_of_not_set (st : AdapterState) (h : st.configSet = false) :
    v4SetConfigIfNotSet st = (emptyRegisteredState, v4ImplicitRegistrationCalls) := by
  unfold v4SetConfigIfNotSet v4SetConfig
  rw [h]
  rfl

theorem v4SetConfigIfNotSet_of_set (st : AdapterState) (h : st.configSet = true) :
    v4SetConfigIfNotSet st = (st, []) := by
  unfold v4SetConfigIfNotSet
  rw [h]
  rfl

theorem v3SetConfigIfNotSet_of_not_set (guest : GuestV3) (st : AdapterState)
    (h : st.configSet = false) :
    v3SetConfigIfNotSet guest st = (emptyRegisteredState, v3ImplicitRegistrationCalls guest) := by
  unfold v3SetConfigIfNotSet v3SetConfig v3ImplicitRegistrationCalls emptyRegisteredState
  rw [h]
  rfl

theorem v3SetConfigIfNotSet_of_set (guest : GuestV3) (st : AdapterState)
    (h : st.configSet = true) :
    v3SetConfigIfNotSet guest st = (st, []) := by
  unfold v3SetConfigIfNotSet
  rw [h]
  rfl

theorem v4FormatText_config_lifecycle (guest : GuestV4) (st : AdapterState)
    (request : FormatRequest)
    (hreach : (request.bytesRange.isSome && !guest.hasFormatRange) = false) :
    (v4FormatText guest st request).state = (v4SetConfigIfNotSet st).1
    ∧ (v4SetConfigIfNotSet st).2 <+: (v4FormatText guest st request).calls
    ∧ ((v4FormatText guest st request).calls.filter
          (fun c => c.isConfigRegistration)).length
      = ((v4SetConfigIfNotSet st).2.filter (fun c => c.isConfigRegistration)).length := by
  refine ⟨?_, ?_, ?_⟩
  · simp only [v4FormatText, hreach, Bool.false_eq_true, if_false]
    split <;> try split <;> try split
    all_goals rfl
  · simp only [v4FormatText, hreach, Bool.false_eq_true, if_false]
    split <;> try split <;> try split
    all_goals (simp only [List.append_assoc]; exact ⟨_, rfl⟩)
  · simp only [v4FormatText, hreach, Bool.false_eq_true, if_false]
    rcases hov : request.overrideConfig with _ | oc <;>
      rcases hbr : request.bytesRange with _ | r <;>
        (split <;> try split <;> try split) <;>
          simp [GuestCall.isConfigRegistration, List.filter_append]

theorem v3FormatText_config_lifecycle (guest : GuestV3) (st : AdapterState)
    (request : FormatRequest) (hrange : request.bytesRange = none) :
    (v3FormatText guest st request).state = (v3SetConfigIfNotSet guest st).1
    ∧ (v3SetConfigIfNotSet guest st).2 <+: (v3FormatText guest st request).calls
    ∧ ((v3FormatText guest st request).calls.filter
          (fun c => c.isConfigRegistration)).length
      = ((v3SetConfigIfNotSet guest st).2.filter (fun c => c.isConfigRegistration)).length := by
  refine ⟨?_, ?_, ?_⟩
  · simp only [v3FormatText, hrange, Option.isSome_none, Bool.false_eq_true, if_false]
    split <;> try split <;> try split <;> try split
    all_goals rfl
  · simp only [v3FormatText, hrange, Option.isSome_none, Bool.false_eq_true, if_false]
    split <;> try split <;> try split <;> try split
    all_goals (first
      | exact ⟨[], List.append_nil _⟩
      | (simp only [List.append_assoc]; exact ⟨_, rfl⟩))
  · simp only [v3FormatText, hrange, Option.isSome_none, Bool.false_eq_true, if_false]
    rcases hov : request.overrideConfig with _ | oc <;>
      (split <;> try split <;> try split <;> try split) <;>
        simp [GuestCall.isConfigRegistration, List.filter_append]

/-- C5 counterexample: on a fresh v4 adapter whose setConfig has never been
called, the very first getFileMatchingInfo call passes handle 1 to
get_config_file_matching without any configuration having been registered
(its trace contains no registration call at all and the state still has
nothing registered), refuting the claim that every info call referencing
the config handle does so only after the handle has been registered. -/
theorem implicit_config_registration_counterexample :
    (v4GetFileMatchingInfo demoGuestV4 initialAdapterState).calls
        = [GuestCall.getConfigFileMatching configId]
      ∧ initialAdapterState.registered = none
      ∧ (∀ c ∈ (v4GetFileMatchingInfo demoGuestV4 initialAdapterState).calls,
          c.isConfigRegistration = false)
      ∧ (v4GetFileMatchingInfo demoGuestV4 initialAdapterState).state.registered
        = none := by
  refine ⟨rfl, rfl, ?_, rfl⟩
  intro c hc
  simp only [v4GetFileMatchingInfo, List.mem_singleton] at hc
  subst hc
  rfl

/-- C5 amended: if setConfig has never been called, the first call among
formatText (when not range-short-circuited), getResolvedConfig and
getConfigDiagnostics registers the empty ({}, {}) configuration exactly
once before the guest call that references the handle, and the
configuration stays registered afterwards; once configSet holds, none of
these calls registers again and the adapter state is untouched.
getFileMatchingInfo, by contrast, performs no implicit registration: it
passes the handle to get_config_file_matching against whatever (possibly
absent) registration the state currently holds.  Both generations behave
this way on their respective call surfaces. -/
theorem implicit_config_registration :
    (∀ (guest : GuestV4) (st : AdapterState), st.configSet = false →
      v4GetResolvedConfig guest st
        = ⟨guest.resolvedConfig (some (emptyConfig, emptyConfig)), emptyRegisteredState,
            v4ImplicitRegistrationCalls ++ [GuestCall.getResolvedConfig configId]⟩
      ∧ v4GetConfigDiagnostics guest st
        = ⟨guest.configDiagnostics (some (emptyConfig, emptyConfig)), emptyRegisteredState,
            v4ImplicitRegistrationCalls ++ [GuestCall.getConfigDiagnostics configId]⟩)
    ∧ (∀ (guest : GuestV4) (st : AdapterState), st.configSet = true →
      v4GetResolvedConfig guest st
        = ⟨guest.resolvedConfig st.registered, st, [GuestCall.getResolvedConfig configId]⟩
      ∧ v4GetConfigDiagnostics guest st
        = ⟨guest.configDiagnostics st.registered, st, [GuestCall.getConfigDiagnostics configId]⟩)
    ∧ (∀ (guest : GuestV4) (st : AdapterState) (request : FormatRequest),
      (request.bytesRange.isSome && !guest.hasFormatRange) = false →
      (st.configSet = false →
        (v4FormatText guest st request).state = emptyRegisteredState
        ∧ v4ImplicitRegistrationCalls <+: (v4FormatText guest st request).calls
        ∧ ((v4FormatText guest st request).calls.filter
            (fun c => c.isConfigRegistration)).length = 1)
      ∧ (st.configSet = true →
        (v4FormatText guest st request).state = st
        ∧ ((v4FormatText guest st request).calls.filter
            (fun c => c.isConfigRegistration)).length = 0))
    ∧ (∀ (guest : GuestV4) (st : AdapterState),
      v4GetFileMatchingInfo guest st
        = ⟨guest.configFileMatching st.registered, st,
            [GuestCall.getConfigFileMatching configId]⟩)
    ∧ (∀ (guest : GuestV3) (st : AdapterState), st.configSet = false →
      v3GetResolvedConfig guest st
        = ⟨guest.resolvedConfig (some (emptyConfig, emptyConfig)), emptyRegisteredState,
            v3ImplicitRegistrationCalls guest ++ [GuestCall.getResolvedConfigV3]⟩
      ∧ v3GetConfigDiagnostics guest st
        = ⟨guest.configDiagnostics (some (emptyConfig, emptyConfig)), emptyRegisteredState,
            v3ImplicitRegistrationCalls guest ++ [GuestCall.getConfigDiagnosticsV3]⟩)
    ∧ (∀ (guest : GuestV3) (st : AdapterState), st.configSet = true →
      v3GetResolvedConfig guest st
        = ⟨guest.resolvedConfig st.registered, st, [GuestCall.getResolvedConfigV3]⟩
      ∧ v3GetConfigDiagnostics guest st
        = ⟨guest.configDiagnostics st.registered, st, [GuestCall.getConfigDiagnosticsV3]⟩)
    ∧ (∀ (guest : GuestV3) (st : AdapterState) (request : FormatRequest),
      request.bytesRange = none →
      (st.configSet = false →
        (v3FormatText guest st request).state = emptyRegisteredState
        ∧ v3ImplicitRegistrationCalls guest <+: (v3FormatText guest st request).calls
        ∧ ((v3FormatText guest st request).calls.filter
            (fun c => c.isConfigRegistration)).length = 2)
      ∧ (st.configSet = true →
        (v3FormatText guest st request).state = st
        ∧ ((v3FormatText guest st request).calls.filter
            (fun c => c.isConfigRegistration)).length = 0)) := by
  have hv3filter : ∀ guest : GuestV3,
      ((v3ImplicitRegistrationCalls guest).filter
        (fun c => c.isConfigRegistration)).length = 2 := by
    intro guest
    unfold v3ImplicitRegistrationCalls
    by_cases h : guest.hasResetConfig <;>
      simp [h, GuestCall.isConfigRegistration, List.filter_append]
  refine ⟨?_, ?_, ?_, ?_, ?_, ?_, ?_⟩
  · intro guest st h
    constructor <;>
      simp [v4GetResolvedConfig, v4GetConfigDiagnostics, v4SetConfigIfNotSet_of_not_set st h,
        emptyRegisteredState]
  · intro guest st h
    constructor <;>
      simp [v4GetResolvedConfig, v4GetConfigDiagnostics, v4SetConfigIfNotSet_of_set st h]
  · intro guest st request hreach
    have hl := v4FormatText_config_lifecycle guest st request hreach
    constructor
    · intro h
      rw [v4SetConfigIfNotSet_of_not_set st h] at hl
      refine ⟨hl.1, hl.2.1, ?_⟩
      rw [hl.2.2]
      rfl
    · intro h
      rw [v4SetConfigIfNotSet_of_set st h] at hl
      exact ⟨hl.1, by rw [hl.2.2]; rfl⟩
  · intro guest st
    rfl
  · intro guest st h
    constructor <;>
      simp [v3GetResolvedConfig, v3GetConfigDiagnostics,
        v3SetConfigIfNotSet_of_not_set guest st h, emptyRegisteredState]
  · intro guest st h
    constructor <;>
      simp [v3GetResolvedConfig, v3GetConfigDiagnostics,
        v3SetConfigIfNotSet_of_set guest st h]
  · intro guest st request hrange
    have hl := v3FormatText_config_lifecycle guest st request hrange
    constructor
    · intro h
      rw [v3SetConfigIfNotSet_of_not_set guest st h] at hl
      refine ⟨hl.1, hl.2.1, ?_⟩
      rw [hl.2.2]
      exact hv3filter guest
    · intro h
      rw [v3SetConfigIfNotSet_of_set guest st h] at hl
      exact ⟨hl.1, by rw [hl.2.2]; rfl⟩

/-- Witness for C5 amended: on a fresh v4 adapter, getResolvedConfig first
releases and registers the empty configuration under handle 1 and only
then reads the resolved config. -/
theorem implicit_config_registration_witness :
    v4GetResolvedConfig demoGuestV4 initialAdapterState
      = ⟨[], emptyRegisteredState,
          v4ImplicitRegistrationCalls ++ [GuestCall.getResolvedConfig configId]⟩ :=
  ((implicit_config_registration.1 demoGuestV4 initialAdapterState rfl).1)

/-! ## C7: host callback bridge code mapping -/

/-- C7: in the host_format callbacks of both generations, an absent host
formatter is a no-op (text unchanged, code 0); with a host formatter
installed, the code is 0 exactly when the formatter result equals the
input text and 1 exactly when it differs (the result then retrievable via
host_get_formatted_text), and it is 2 exactly when the formatter throws
(the stringified error then retrievable via host_get_error_text); the
thrown value is captured into the staging state instead of propagating. -/
theorem host_callback_code_mapping :
    (∀ (st : HostState) filePath rangeStart rangeEnd overrideRaw fileText fileBytesLen,
      v4HostFormat none st filePath rangeStart rangeEnd overrideRaw fileText fileBytesLen
        = (0, { st with formattedText := fileText }))
    ∧ (∀ (f : FormatRequest → Except Str Str) (st : HostState)
        filePath rangeStart rangeEnd overrideRaw fileText fileBytesLen,
      (∀ t, f ⟨filePath, fileText,
          (if rangeStart = 0 ∧ rangeEnd = fileBytesLen then none
            else some (rangeStart, rangeEnd)),
          some (if overrideRaw = [] then emptyConfig else overrideRaw)⟩ = Except.ok t →
        v4HostFormat (some f) st filePath rangeStart rangeEnd overrideRaw fileText fileBytesLen
          = (if fileText = t then 0 else 1, { st with formattedText := t })
        ∧ v4HostGetFormattedText
            (v4HostFormat (some f) st filePath rangeStart rangeEnd overrideRaw
              fileText fileBytesLen).2 = t)
      ∧ (∀ e, f ⟨filePath, fileText,
          (if rangeStart = 0 ∧ rangeEnd = fileBytesLen then none
            else some (rangeStart, rangeEnd)),
          some (if overrideRaw = [] then emptyConfig else overrideRaw)⟩ = Except.error e →
        v4HostFormat (some f) st filePath rangeStart rangeEnd overrideRaw fileText fileBytesLen
          = (2, { st with errorText := e })
        ∧ v4HostGetErrorText
            (v4HostFormat (some f) st filePath rangeStart rangeEnd overrideRaw
              fileText fileBytesLen).2 = e))
    ∧ (∀ (st : V3HostState) fileText,
      v3HostFormat none st fileText = (0, { st with formattedText := fileText }))
    ∧ (∀ (f : FormatRequest → Except Str Str) (st : V3HostState) fileText,
      (∀ t, f ⟨st.filePath, fileText, none, some st.overrideConfig⟩ = Except.ok t →
        v3HostFormat (some f) st fileText
          = (if fileText = t then 0 else 1, { st with formattedText := t })
        ∧ v3HostGetFormattedText (v3HostFormat (some f) st fileText).2 = t)
      ∧ (∀ e, f ⟨st.filePath, fileText, none, some st.overrideConfig⟩ = Except.error e →
        v3HostFormat (some f) st fileText = (2, { st with errorText := e })
        ∧ v3HostGetErrorText (v3HostFormat (some f) st fileText).2 = e)) := by
  refine ⟨?_, ?_, ?_, ?_⟩
  · intro st filePath rangeStart rangeEnd overrideRaw fileText fileBytesLen
    unfold v4HostFormat
    simp
  · intro f st filePath rangeStart rangeEnd overrideRaw fileText fileBytesLen
    constructor
    · intro t ht
      simp only [v4HostFormat, v4HostGetFormattedText]
      rw [ht]
      exact ⟨rfl, rfl⟩
    · intro e he
      simp only [v4HostFormat, v4HostGetErrorText]
      rw [he]
      exact ⟨rfl, rfl⟩
  · intro st fileText
    unfold v3HostFormat
    simp
  · intro f st fileText
    constructor
    · intro t ht
      simp only [v3HostFormat, v3HostGetFormattedText]
      rw [ht]
      exact ⟨rfl, rfl⟩
    · intro e he
      simp only [v3HostFormat, v3HostGetErrorText]
      rw [he]
      exact ⟨rfl, rfl⟩

/-- Witness for C7: with no host formatter the v4 callback returns code 0
leaving "abc" unchanged; the appending host formatter yields code 1 with
"abc!" retrievable; the throwing one yields code 2 with its stringified
error retrievable. -/
theorem host_callback_code_mapping_witness :
    v4HostFormat none initialHostState "p".toList 0 3 [] "abc".toList 3
        = (0, { initialHostState with formattedText := "abc".toList })
      ∧ (v4HostFormat (some demoHostFormatter) initialHostState "p".toList 0 3 []
          "abc".toList 3).1 = 1
      ∧ v4HostGetFormattedText (v4HostFormat (some demoHostFormatter) initialHostState
          "p".toList 0 3 [] "abc".toList 3).2 = "abc!".toList
      ∧ v4HostFormat (some demoThrowingHostFormatter) initialHostState "p".toList 0 3 []
          "abc".toList 3
        = (2, { initialHostState with errorText := "Error: host failed".toList }) := by
  have h1 := host_callback_code_mapping.1 initialHostState "p".toList 0 3 []
    "abc".toList 3
  have h2 := (host_callback_code_mapping.2.1 demoHostFormatter initialHostState
    "p".toList 0 3 [] "abc".toList 3).1 "abc!".toList rfl
  have h3 := (host_callback_code_mapping.2.1 demoThrowingHostFormatter initialHostState
    "p".toList 0 3 [] "abc".toList 3).2 "Error: host failed".toList rfl
  refine ⟨h1, ?_, h2.2, h3.1⟩
  rw [h2.1]
  decide

/-! ## C8: streaming-source rejection -/

/-- C8: a streaming source with a non-200 status is rejected with the
message carrying the status code and the response text, before any module
is compiled or formatter created; a 200 source always yields a compiled
module — via the streaming path exactly when the runtime supports it and
the content type is application/wasm, and via the array-buffer fallback
otherwise — and createStreaming then instantiates the same module either
way, so a formatter is produced independently of the content type. -/
theorem streaming_source_rejection (compile : List Nat → List Str) (env : WasmEnv)
    (r : ResponseLike) :
    (r.status ≠ 200 →
      createWasmModuleFromStreaming compile env r
          = Except.error (unexpectedStatusMessage r)
        ∧ createStreaming compile env r = Except.error (unexpectedStatusMessage r)
        ∧ (toString r.status).toList <:+: unexpectedStatusMessage r
        ∧ r.bodyText <:+ unexpectedStatusMessage r)
    ∧ (r.status = 200 →
      createWasmModuleFromStreaming compile env r
          = Except.ok ⟨(if env.hasInstantiateStreaming
                ∧ r.contentType = some "application/wasm".toList
              then CompilePath.streaming else CompilePath.buffer), compile r.body⟩
        ∧ createStreaming compile env r = createFromWasmModule (compile r.body)) := by
  constructor
  · intro h
    have hmod : createWasmModuleFromStreaming compile env r
        = Except.error (unexpectedStatusMessage r) := by
      unfold createWasmModuleFromStreaming
      rw [if_pos h]
    refine ⟨hmod, ?_, ?_, ?_⟩
    · unfold createStreaming
      rw [hmod]
      rfl
    · exact ⟨"Unexpected status code: ".toList, "\n".toList ++ r.bodyText, by
        simp [unexpectedStatusMessage]⟩
    · exact ⟨"Unexpected status code: ".toList ++ (toString r.status).toList
        ++ "\n".toList, by simp [unexpectedStatusMessage]⟩
  · intro h
    have hne : ¬r.status ≠ 200 := by simp [h]
    constructor
    · unfold createWasmModuleFromStreaming
      rw [if_neg hne]
      by_cases hct : env.hasInstantiateStreaming
          ∧ r.contentType = some "application/wasm".toList
      · rw [if_pos hct, if_pos hct]
      · rw [if_neg hct, if_neg hct]
    · unfold createStreaming createWasmModuleFromStreaming
      rw [if_neg hne]
      by_cases hct : env.hasInstantiateStreaming
          ∧ r.contentType = some "application/wasm".toList
      · rw [if_pos hct]
        rfl
      · rw [if_neg hct]
        rfl

/-- Witness for C8: the 404 source is rejected with the diagnostic
carrying 404 and the body text, and the 200 source with a non-wasm content
type still produces the generation-4 formatter through the buffer path. -/
theorem streaming_source_rejection_witness :
    createStreaming demoCompile demoEnv notFoundResponse
        = Except.error (unexpectedStatusMessage notFoundResponse)
      ∧ createStreaming demoCompile demoEnv okOctetResponse
        = Except.ok AdapterGen.gen4 := by
  constructor
  · exact ((streaming_source_rejection demoCompile demoEnv notFoundResponse).1
      (by decide)).2.1
  · rw [((streaming_source_rejection demoCompile demoEnv okOctetResponse).2 rfl).2]
    rfl

/-! ## C9: addPlugin assumes fileExtensions is defined -/

/-- C9: createContext addPlugin throws (the .map call on an undefined
fileExtensions) before the plugin is pushed, leaving the registered-plugin
list unchanged; a plugin is appended exactly when the matching-info
fileExtensions is an actual array. -/
theorem addPlugin_requires_fileExtensions (plugins : List RegisteredPlugin)
    (formatter : FormatRequest → Except Str Str) (matchingInfo : FileMatchingInfo) :
    (matchingInfo.fileExtensions = none →
      (addPlugin plugins formatter matchingInfo).threw = true
      ∧ (addPlugin plugins formatter matchingInfo).plugins = plugins)
    ∧ (∀ exts, matchingInfo.fileExtensions = some exts →
      (addPlugin plugins formatter matchingInfo).threw = false
      ∧ ∃ registered, (addPlugin plugins formatter matchingInfo).plugins
          = plugins ++ [registered]) := by
  constructor
  · intro h
    unfold addPlugin
    rw [h]
    exact ⟨rfl, rfl⟩
  · intro exts h
    unfold addPlugin
    rw [h]
    exact ⟨rfl, _, rfl⟩

/-- Witness for C9: an info record with undefined fileExtensions makes
addPlugin throw with the plugin list untouched; a defined one appends. -/
theorem addPlugin_requires_fileExtensions_witness :
    (addPlugin [] (fun r => Except.ok r.fileText) ⟨none, ["dockerfile".toList]⟩).threw
        = true
      ∧ (addPlugin [] (fun r => Except.ok r.fileText) ⟨none, ["dockerfile".toList]⟩).plugins
        = []
      ∧ (addPlugin [] (fun r => Except.ok r.fileText)
          ⟨some ["JSON".toList], []⟩).threw = false := by
  have h1 := (addPlugin_requires_fileExtensions []
    (fun r => Except.ok r.fileText) ⟨none, ["dockerfile".toList]⟩).1 rfl
  have h2 := ((addPlugin_requires_fileExtensions []
    (fun r => Except.ok r.fileText) ⟨some ["JSON".toList], []⟩).2
    ["JSON".toList] rfl).1
  exact ⟨h1.1, h1.2, h2⟩

/-! ## C3: version detection -/

/-- C3 counterexample: (a) the suffix of dprint_plugin_version_-1 parses
(parseInt accepts a sign), so a module exporting only that name is
classified as generation -1 and rejected with the too-old message, not
with the version-undeterminable error the claim requires for modules
without a non-negative versioned export; (b) exports are scanned in
order, so a module listing dprint_plugin_version_4 before
get_plugin_schema_version is classified generation 4, not generation 3 as
the unconditional exact-name rule of the claim requires. -/
theorem version_detection_counterexample :
    getVersionFromExport "dprint_plugin_version_-1".toList = some (-1)
      ∧ getModuleVersionOrThrow ["dprint_plugin_version_-1".toList]
        = Except.error (tooOldVersionMessage (-1))
      ∧ tooOldVersionMessage (-1) ≠ versionUndeterminableMessage
      ∧ getModuleVersion
          ["dprint_plugin_version_4".toList, "get_plugin_schema_version".toList]
        = some 4
      ∧ createFromWasmModule
          ["dprint_plugin_version_4".toList, "get_plugin_schema_version".toList]
        = Except.ok AdapterGen.gen4 := by
  refine ⟨rfl, rfl, ?_, rfl, rfl⟩
  decide

/-- C3 amended: version classification inspects only export names, scanned
in export order, and the first export yielding a version decides: an
export named exactly get_plugin_schema_version yields 3 (regardless of
what that export would return at call time), and otherwise a name with
prefix dprint_plugin_version_ whose suffix parseInt-parses (negative
values included) yields the parsed integer.  Version 3 selects the v3
adapter and 4 the v4 adapter; a parsed version above 4 fails with the
too-new message; any other parsed version (below 3, negatives included)
fails with the too-old/upgrade message; and a module with no versioned
export fails with the version-undeterminable message.  Exactly one
adapter is selected, with no fallback across generations. -/
theorem version_detection (exports : List Str) :
    (∀ pre e post v, exports = pre ++ e :: post →
      (∀ x ∈ pre, getVersionFromExport x = none) →
      getVersionFromExport e = some v →
      getModuleVersion exports = some v)
    ∧ (getModuleVersion exports = some 3 →
        createFromWasmModule exports = Except.ok AdapterGen.gen3)
    ∧ (getModuleVersion exports = some 4 →
        createFromWasmModule exports = Except.ok AdapterGen.gen4)
    ∧ (∀ v, getModuleVersion exports = some v → 4 < v →
        createFromWasmModule exports = Except.error (tooNewVersionMessage v))
    ∧ (∀ v, getModuleVersion exports = some v → v < 3 →
        createFromWasmModule exports = Except.error (tooOldVersionMessage v))
    ∧ (getModuleVersion exports = none →
        createFromWasmModule exports = Except.error versionUndeterminableMessage)
    ∧ getVersionFromExport "get_plugin_schema_version".toList = some 3 := by
  refine ⟨?_, ?_, ?_, ?_, ?_, ?_, rfl⟩
  · intro pre e post v hsplit hpre he
    subst hsplit
    induction pre with
    | nil => simp [getModuleVersion, he]
    | cons x xs ih =>
      have hx : getVersionFromExport x = none := hpre x (by simp)
      simp only [List.cons_append, getModuleVersion, hx]
      exact ih (fun y hy => hpre y (by simp [hy]))
  · intro h
    unfold createFromWasmModule getModuleVersionOrThrow
    rw [h]
    rfl
  · intro h
    unfold createFromWasmModule getModuleVersionOrThrow
    rw [h]
    rfl
  · intro v h hv
    simp only [createFromWasmModule, getModuleVersionOrThrow, h]
    rw [if_neg (by omega), if_pos (by omega)]
    rfl
  · intro v h hv
    simp only [createFromWasmModule, getModuleVersionOrThrow, h]
    rw [if_neg (by omega), if_neg (by omega)]
    rfl
  · intro h
    unfold createFromWasmModule getModuleVersionOrThrow
    rw [h]
    rfl

/-- Witness for C3 amended: a module exporting only get_plugin_schema_version
instantiates the v3 adapter, one exporting dprint_plugin_version_4 the v4
adapter, and one exporting dprint_plugin_version_9 fails too-new. -/
theorem version_detection_witness :
    createFromWasmModule ["get_plugin_schema_version".toList]
        = Except.ok AdapterGen.gen3
      ∧ createFromWasmModule ["dprint_plugin_version_4".toList]
        = Except.ok AdapterGen.gen4
      ∧ createFromWasmModule ["dprint_plugin_version_9".toList]
        = Except.error (tooNewVersionMessage 9) :=
  ⟨(version_detection ["get_plugin_schema_version".toList]).2.1 rfl,
    (version_detection ["dprint_plugin_version_4".toList]).2.2.1 rfl,
    (version_detection ["dprint_plugin_version_9".toList]).2.2.2.1 9 rfl
      (by norm_num)⟩

end DprintFmt
